import Mathlib

/-!
Shallow embedding of the PDF-unlocker client (service layer `pdfService.js`
and queue orchestrator `ui/app.js`) and verification of the frozen claims.

The service layer is embedded as a pure function from an explicit module
state, an optional input file, the current value of the file-input element,
the `returnBlob` configuration flag, and an environment describing the
behaviour of the external collaborators (the WASM module loader, the
engine's decrypt call, and the virtual-filesystem unlink), to a result
record carrying the resolved value, the sequence of `onStatus` calls, an
event trace of the side effects, the final module state, and the final
value of the file-input element.
-/

namespace PdfUnlocker

/-- An input file handle: a name, a declared MIME type, a declared byte
length (`file.size`), and the byte content delivered by `file.arrayBuffer()`. -/
structure JsFile where
  name : String
  type : String
  size : Nat
  content : List Nat
deriving DecidableEq, Repr

def MAX_FILE_SIZE_MB : Nat := 100

def MAX_FILE_SIZE_BYTES : Nat := MAX_FILE_SIZE_MB * 1024 * 1024

/-- The value a `processFile` call resolves with: a Blob of output bytes,
the JavaScript `null`, or the JavaScript `undefined` (a bare `return` or
falling off the end of the function body). -/
inductive RetVal where
  | blob (bytes : List Nat)
  | nullV
  | undefV
deriving DecidableEq, Repr

/-- One `onStatus(state, mainText, subText)` callback invocation. -/
structure StatusCall where
  state : String
  mainText : String
  subText : String
deriving DecidableEq, Repr

/-- Side-effect events of one `processFile` run, in program order. -/
inductive Ev where
  | readBuffer
  | fsWrite (name : String)
  | zeroFill
  | decryptCall (inputName outputName : String)
  | fsRead (name : String)
  | unlinkTry (name : String)
  | cleanupWarn (name : String)
  | createURL (u : Nat)
  | revokeURL (u : Nat)
  | download (filename : String)
deriving DecidableEq, Repr

/-- Behaviour of the external collaborators during one `processFile` run:
whether the global `Module` function is available, what the engine's
decrypt does on the staged bytes (`none` models `callMain`/`FS.readFile`
raising), which `FS.unlink` calls raise, and the `Date.now()` tick used to
generate staging names. -/
structure Env where
  moduleLoaded : Bool
  decrypt : List Nat → Option (List Nat)
  unlinkRaises : String → Bool
  now : Nat

/-- The module-level mutable state of the service layer: whether
`qpdfModule` is set and the `isProcessing` busy flag. -/
structure SvcState where
  qpdfModule : Bool
  isProcessing : Bool
deriving DecidableEq, Repr

/-- Result of one `processFile` run. -/
structure PFOut where
  ret : RetVal
  statuses : List StatusCall
  trace : List Ev
  state : SvcState
  fileInputValue : String
deriving DecidableEq, Repr

/-- Magic-byte validation from `processFile`: the buffer has at least 4
bytes and they are 0x25 0x50 0x44 0x46. -/
def hasPdfSignature (bytes : List Nat) : Bool :=
  match bytes with
  | b0 :: b1 :: b2 :: b3 :: _ =>
      b0 == 0x25 && b1 == 0x50 && b2 == 0x44 && b3 == 0x46
  | _ => false

def inputStagingName (now : Nat) : String := "input_" ++ toString now ++ ".pdf"

def outputStagingName (now : Nat) : String := "output_" ++ toString now ++ ".pdf"

/-- Filename derivation: strip a trailing case-insensitive `.pdf`. -/
def stripPdfExt (originalName : String) : String :=
  if originalName.toLower.endsWith ".pdf" then originalName.dropRight 4
  else originalName

/-- One guarded `FS.unlink` from the cleanup block: the unlink is attempted;
if it raises, the exception is caught and a warning logged, never rethrown. -/
def unlinkGuarded (env : Env) (name : String) : List Ev :=
  if env.unlinkRaises name then [Ev.unlinkTry name, Ev.cleanupWarn name]
  else [Ev.unlinkTry name]

def invalidFormatStatus : StatusCall :=
  ⟨"error", "Invalid Format", "Please upload a valid PDF document."⟩

def fileTooLargeStatus : StatusCall :=
  ⟨"error", "File Too Large", "Maximum file size is 100 MB."⟩

def processingStatus : StatusCall :=
  ⟨"processing", "Unlocking locally...",
   "Parsing structure and removing restrictions securely."⟩

def invalidPdfStatus : StatusCall :=
  ⟨"error", "Invalid PDF", "File header does not match a valid PDF signature."⟩

def processingFailedStatus : StatusCall :=
  ⟨"error", "Processing Failed",
   "The document appears to be corrupted or too heavily encrypted."⟩

def successStatus (newFilename : String) : StatusCall :=
  ⟨"success", "Success! Downloading...", newFilename ++ " is ready."⟩

/-- Embedding of `processFile(file, callbacks, config)` from the service
layer. Takes the module state, the (optional) file, the current
`fileInput.value`, `config.returnBlob`, and the collaborator environment. -/
def processFile (st : SvcState) (file : Option JsFile) (fileInputValue0 : String)
    (returnBlob : Bool) (env : Env) : PFOut :=
  match file with
  | none =>
      ⟨RetVal.undefV, [invalidFormatStatus], [], st, fileInputValue0⟩
  | some f =>
      if f.type ≠ "application/pdf" then
        ⟨RetVal.undefV, [invalidFormatStatus], [], st, fileInputValue0⟩
      else if f.size > MAX_FILE_SIZE_BYTES then
        ⟨RetVal.nullV, [fileTooLargeStatus], [], st, fileInputValue0⟩
      else if st.isProcessing then
        ⟨RetVal.nullV, [], [], st, fileInputValue0⟩
      else if !st.qpdfModule && !env.moduleLoaded then
        ⟨RetVal.undefV, [processingStatus, processingFailedStatus], [],
         ⟨st.qpdfModule, false⟩, ""⟩
      else if !hasPdfSignature f.content then
        ⟨RetVal.nullV, [processingStatus, invalidPdfStatus], [Ev.readBuffer],
         ⟨true, false⟩, ""⟩
      else
        let inName := inputStagingName env.now
        let outName := outputStagingName env.now
        let pre : List Ev :=
          [Ev.readBuffer, Ev.fsWrite inName, Ev.zeroFill,
           Ev.decryptCall inName outName]
        match env.decrypt f.content with
        | none =>
            ⟨RetVal.undefV, [processingStatus, processingFailedStatus], pre,
             ⟨true, false⟩, ""⟩
        | some outBytes =>
            let cleanup := unlinkGuarded env inName ++ unlinkGuarded env outName
            let newFilename := stripPdfExt f.name ++ "_unlocked.pdf"
            if returnBlob then
              ⟨RetVal.blob outBytes, [processingStatus],
               pre ++ [Ev.fsRead outName] ++ cleanup ++ [Ev.createURL 0],
               ⟨true, false⟩, ""⟩
            else
              ⟨RetVal.nullV, [processingStatus, successStatus newFilename],
               pre ++ [Ev.fsRead outName] ++ cleanup ++
                 [Ev.createURL 0, Ev.download newFilename, Ev.revokeURL 0],
               ⟨true, false⟩, ""⟩

/-!
Embedding of `initWasm()`. `qpdfModule` is assigned only after the awaited
`Module({...})` call resolves, so a call is split at its await point into a
synchronous start phase and a resume phase. The state counts how many
engine instances have been created (`Module({...})` invocations started).
-/

/-- Module-level state relevant to `initWasm`: the completed engine
instance (if any), the next fresh instance id, and how many engine
instances have been created so far. -/
structure InitState where
  qpdfModule : Option Nat
  nextId : Nat
  created : Nat
deriving DecidableEq, Repr

/-- What the synchronous part of one `initWasm()` call did: returned
immediately because `qpdfModule` is set, threw because `Module` is not a
function, or started a fresh `Module({...})` creation and suspended. -/
inductive InitAction where
  | done
  | threw
  | pending (id : Nat)
deriving DecidableEq, Repr

/-- Synchronous start of one `initWasm()` call: the `if (qpdfModule) return`
guard, the `typeof Module` check, and the start of the awaited
`Module({...})` creation. -/
def initWasmStart (moduleLoaded : Bool) (st : InitState) : InitState × InitAction :=
  match st.qpdfModule with
  | some _ => (st, InitAction.done)
  | none =>
      if moduleLoaded then
        (⟨none, st.nextId + 1, st.created + 1⟩, InitAction.pending st.nextId)
      else (st, InitAction.threw)

/-- Resumption of a suspended `initWasm()` call: the awaited creation
resolved with instance `id`, which is assigned to `qpdfModule`. -/
def initWasmResume (st : InitState) (id : Nat) : InitState :=
  ⟨some id, st.nextId, st.created⟩

/-!
Embedding of the queue orchestrator in `ui/app.js`: batch admission
(`queueFiles`), the `processQueue` entry guard, the archive-mode decision,
and the drain loop. The drain loop is embedded over an arrival schedule:
`arrivals` lists, per loop iteration, the files appended to `fileQueue` by
submissions that land during that iteration's awaited `processFile` call
(an empty tail of the schedule means no further arrivals).
-/

def MAX_BATCH_FILES : Nat := 20

def ZIP_MEMORY_LIMIT_MB : Nat := 150

def ZIP_MEMORY_LIMIT_BYTES : Nat := ZIP_MEMORY_LIMIT_MB * 1024 * 1024

/-- How one `queueFiles(fileList)` call ended. -/
inductive AdmitResult where
  | blockedErr
  | invalidFormatErr
  | batchLimitErr
  | admitted
deriving DecidableEq, Repr

/-- The filter `Array.from(fileList).filter(f => f.type === "application/pdf")`. -/
def pdfFilter (fileList : List JsFile) : List JsFile :=
  fileList.filter (fun f => f.type == "application/pdf")

/-- Result of one `queueFiles` call: the new `fileQueue` and the outcome. -/
structure QueueFilesOut where
  fileQueue : List JsFile
  result : AdmitResult
deriving DecidableEq, Repr

/-- Embedding of `queueFiles(fileList)`: the WASM-blocked guard, the PDF
filter, the empty-after-filter rejection, the batch-ceiling rejection, and
the enqueue (`fileQueue.push(...files)`). -/
def queueFiles (wasmBlocked : Bool) (fileQueue : List JsFile)
    (fileList : List JsFile) : QueueFilesOut :=
  if wasmBlocked then ⟨fileQueue, AdmitResult.blockedErr⟩
  else
    let files := pdfFilter fileList
    if files.length == 0 then ⟨fileQueue, AdmitResult.invalidFormatErr⟩
    else if files.length > MAX_BATCH_FILES then ⟨fileQueue, AdmitResult.batchLimitErr⟩
    else ⟨fileQueue ++ files, AdmitResult.admitted⟩

/-- The `processQueue` entry guard `if (isQueueRunning) return; isQueueRunning
= true;`: returns the new value of the flag and whether a drain started. -/
def processQueueAcquire (isQueueRunning : Bool) : Bool × Bool :=
  if isQueueRunning then (isQueueRunning, false) else (true, true)

/-- `fileQueue.reduce((acc, f) => acc + f.size, 0)`. -/
def totalBatchSize (q : List JsFile) : Nat :=
  q.foldl (fun acc f => acc + f.size) 0

/-- The archive-mode decision computed once at drain entry:
`(totalBatchSize < ZIP_MEMORY_LIMIT_BYTES) && (totalFilesThisBatch > 1)`. -/
def useZip (q : List JsFile) : Bool :=
  decide (totalBatchSize q < ZIP_MEMORY_LIMIT_BYTES) && decide (q.length > 1)

/-- The drain loop's processing order: repeatedly shift the queue head,
then append the files that arrived during that iteration's awaited
`processFile` call. Once the arrival schedule is exhausted the loop drains
the remaining queue undisturbed. -/
def drainRun (queue : List JsFile) (arrivals : List (List JsFile)) : List JsFile :=
  match arrivals with
  | [] => queue
  | a :: rest =>
      match queue with
      | [] => []
      | h :: t => h :: drainRun (t ++ a) rest

/-- Progress messages of the remaining iterations once no further arrivals
occur: `Unlocking (i/n)...` pairs with the fixed batch total `n`. -/
def drainStepsTail (n i : Nat) (queue : List JsFile) : List (Nat × Nat) :=
  match queue with
  | [] => []
  | _ :: t => (i + 1, n) :: drainStepsTail n (i + 1) t

/-- The `(currentProcessed, totalFilesThisBatch)` pairs displayed by the
drain loop's `Unlocking (i/n)...` progress message, one per iteration,
under the given arrival schedule. -/
def drainSteps (n i : Nat) (queue : List JsFile)
    (arrivals : List (List JsFile)) : List (Nat × Nat) :=
  match arrivals with
  | [] => drainStepsTail n i queue
  | a :: rest =>
      match queue with
      | [] => []
      | _ :: t => (i + 1, n) :: drainSteps n (i + 1) (t ++ a) rest

/-- Events of the archive-assembly step after the queue empties: when
archive mode is on and at least one file succeeded, the built ZIP blob gets
an object URL, is downloaded, and the URL is revoked; if the build throws,
the catch reports ZIP Failed and no URL was created. -/
def zipFinalize (useZipFlag : Bool) (successfulBlobs : Nat)
    (zipBuildOk : Bool) : List Ev :=
  if useZipFlag && decide (successfulBlobs > 0) then
    if zipBuildOk then
      [Ev.createURL 1, Ev.download "Unlocked_PDFs.zip", Ev.revokeURL 1]
    else []
  else []

/-- Object-URL ids created in a trace. -/
def createdURLs (tr : List Ev) : List Nat :=
  tr.filterMap (fun e =>
    match e with
    | Ev.createURL u => some u
    | _ => none)

/-- Object-URL ids revoked in a trace. -/
def revokedURLs (tr : List Ev) : List Nat :=
  tr.filterMap (fun e =>
    match e with
    | Ev.revokeURL u => some u
    | _ => none)

/-- Every object URL created in the trace is also revoked in it. -/
def urlsReleased (tr : List Ev) : Bool :=
  (createdURLs tr).all (fun u => (revokedURLs tr).contains u)

/-! Concrete sample inputs used by witnesses and counterexamples. -/

/-- A small well-formed PDF file handle. -/
def samplePdf : JsFile :=
  ⟨"doc.pdf", "application/pdf", 100, [0x25, 0x50, 0x44, 0x46, 0]⟩

/-- A second small well-formed PDF file handle. -/
def samplePdf2 : JsFile :=
  ⟨"b.pdf", "application/pdf", 200, [0x25, 0x50, 0x44, 0x46, 1]⟩

/-- A file whose declared type is not the PDF MIME type. -/
def sampleTxt : JsFile :=
  ⟨"notes.txt", "text/plain", 10, [0x25, 0x50, 0x44, 0x46, 0]⟩

/-- A PDF-typed file whose content lacks the PDF signature. -/
def sampleBadSig : JsFile :=
  ⟨"fake.pdf", "application/pdf", 100, [0, 1, 2, 3]⟩

/-- An environment whose engine decrypt succeeds and whose unlinks succeed. -/
def sampleEnvOk : Env :=
  ⟨true, fun _ => some [1, 2, 3], fun _ => false, 42⟩

/-- An environment whose engine decrypt raises. -/
def sampleEnvRaise : Env :=
  ⟨true, fun _ => none, fun _ => false, 42⟩

/-- An environment whose engine decrypt succeeds but both unlinks raise. -/
def sampleEnvUnlinkFail : Env :=
  ⟨true, fun _ => some [1, 2, 3], fun _ => true, 42⟩

/-! Helper lemmas about the drain loop. -/

/-- When the initial queue is nonempty and every mid-drain arrival batch is
nonempty, the single drain loop processes the initial queue followed by all
arrivals, in FIFO order. -/
theorem drainRun_eq_append (arrivals : List (List JsFile)) :
    ∀ queue : List JsFile, (queue = [] → arrivals = []) →
      (∀ a ∈ arrivals, a ≠ []) →
      drainRun queue arrivals = queue ++ arrivals.flatten := by
  induction arrivals with
  | nil =>
      intro queue _ _
      simp [drainRun]
  | cons a rest ih =>
      intro queue hq ha
      match queue with
      | [] => simp at hq
      | h :: t =>
          have hane : a ≠ [] := ha a (by simp)
          have htne : t ++ a ≠ [] := by
            intro hcontra
            exact hane (List.append_eq_nil.mp hcontra).2
          have := ih (t ++ a) (fun hc => absurd hc htne)
            (fun x hx => ha x (List.mem_cons_of_mem _ hx))
          simp only [drainRun, this, List.flatten, List.cons_append, List.append_assoc]

/-- Every progress message of the tail of the drain displays the same fixed
batch total `n`. -/
theorem drainStepsTail_snd_eq (n : Nat) :
    ∀ (queue : List JsFile) (i : Nat), ∀ e ∈ drainStepsTail n i queue, e.2 = n := by
  intro queue
  induction queue with
  | nil => intro i e he; simp [drainStepsTail] at he
  | cons h t ih =>
      intro i e he
      simp only [drainStepsTail, List.mem_cons] at he
      rcases he with he | he
      · rw [he]
      · exact ih (i + 1) e he

/-- Every progress message of the drain displays the same fixed batch
total `n`, whatever the arrival schedule. -/
theorem drainSteps_snd_eq (n : Nat) (arrivals : List (List JsFile)) :
    ∀ (queue : List JsFile) (i : Nat), ∀ e ∈ drainSteps n i queue arrivals, e.2 = n := by
  induction arrivals with
  | nil =>
      intro queue i e he
      exact drainStepsTail_snd_eq n queue i e he
  | cons a rest ih =>
      intro queue i e he
      match queue with
      | [] => simp [drainSteps] at he
      | h :: t =>
          simp only [drainSteps, List.mem_cons] at he
          rcases he with he | he
          · rw [he]
          · exact ih (t ++ a) (i + 1) e he

/-- The final iteration of a nonempty tail drain displays the counter
`i + queue.length`. -/
theorem drainStepsTail_mem_last (n : Nat) :
    ∀ (queue : List JsFile) (i : Nat), queue ≠ [] →
      (i + queue.length, n) ∈ drainStepsTail n i queue := by
  intro queue
  induction queue with
  | nil => intro i h; exact absurd rfl h
  | cons hd t ih =>
      intro i _
      match ht : t with
      | [] => simp [drainStepsTail]
      | x :: xs =>
          have := ih (i + 1) (by simp [ht])
          rw [← ht]
          simp only [drainStepsTail, List.mem_cons]
          right
          have harith : i + 1 + t.length = i + (hd :: t).length := by
            simp [List.length_cons]
            omega
          rw [← harith]
          exact ht ▸ this

/-- The final iteration of the drain displays the counter
`i + (number of files processed)`. -/
theorem drainSteps_mem_last (n : Nat) (arrivals : List (List JsFile)) :
    ∀ (queue : List JsFile) (i : Nat), queue ≠ [] →
      (∀ a ∈ arrivals, a ≠ []) →
      (i + (drainRun queue arrivals).length, n) ∈ drainSteps n i queue arrivals := by
  induction arrivals with
  | nil =>
      intro queue i hne _
      simpa [drainRun] using drainStepsTail_mem_last n queue i hne
  | cons a rest ih =>
      intro queue i hne ha
      match queue with
      | [] => exact absurd rfl hne
      | h :: t =>
          have hane : a ≠ [] := ha a (by simp)
          have htne : t ++ a ≠ [] := by
            intro hcontra
            exact hane (List.append_eq_nil.mp hcontra).2
          have := ih (t ++ a) (i + 1) htne
            (fun x hx => ha x (List.mem_cons_of_mem _ hx))
          simp only [drainRun, drainSteps, List.length_cons, List.mem_cons]
          right
          have harith : i + 1 + (drainRun (t ++ a) rest).length =
              i + ((drainRun (t ++ a) rest).length + 1) := by omega
          rw [← harith]
          exact this

/-! Path lemmas for `processFile`, one per exit path. -/

theorem processFile_none (st : SvcState) (v : String) (rb : Bool) (env : Env) :
    processFile st none v rb env =
      ⟨RetVal.undefV, [invalidFormatStatus], [], st, v⟩ := rfl

theorem processFile_badType (st : SvcState) (f : JsFile) (v : String) (rb : Bool)
    (env : Env) (htype : f.type ≠ "application/pdf") :
    processFile st (some f) v rb env =
      ⟨RetVal.undefV, [invalidFormatStatus], [], st, v⟩ := by
  simp only [processFile]
  rw [if_pos htype]

theorem processFile_tooLarge (st : SvcState) (f : JsFile) (v : String) (rb : Bool)
    (env : Env) (htype : f.type = "application/pdf")
    (hsize : f.size > MAX_FILE_SIZE_BYTES) :
    processFile st (some f) v rb env =
      ⟨RetVal.nullV, [fileTooLargeStatus], [], st, v⟩ := by
  simp only [processFile]
  rw [if_neg (by simp [htype]), if_pos hsize]

theorem processFile_busy (st : SvcState) (f : JsFile) (v : String) (rb : Bool)
    (env : Env) (htype : f.type = "application/pdf")
    (hsize : f.size ≤ MAX_FILE_SIZE_BYTES) (hbusy : st.isProcessing = true) :
    processFile st (some f) v rb env =
      ⟨RetVal.nullV, [], [], st, v⟩ := by
  simp only [processFile]
  rw [if_neg (by simp [htype]), if_neg (by omega), if_pos hbusy]

theorem processFile_initFail (st : SvcState) (f : JsFile) (v : String) (rb : Bool)
    (env : Env) (htype : f.type = "application/pdf")
    (hsize : f.size ≤ MAX_FILE_SIZE_BYTES) (hbusy : st.isProcessing = false)
    (hq : st.qpdfModule = false) (hm : env.moduleLoaded = false) :
    processFile st (some f) v rb env =
      ⟨RetVal.undefV, [processingStatus, processingFailedStatus], [],
       ⟨st.qpdfModule, false⟩, ""⟩ := by
  simp only [processFile]
  rw [if_neg (by simp [htype]), if_neg (by omega), if_neg (by simp [hbusy]),
    if_pos (by simp [hq, hm])]

theorem processFile_badSig (st : SvcState) (f : JsFile) (v : String) (rb : Bool)
    (env : Env) (htype : f.type = "application/pdf")
    (hsize : f.size ≤ MAX_FILE_SIZE_BYTES) (hbusy : st.isProcessing = false)
    (hmod : st.qpdfModule = true ∨ env.moduleLoaded = true)
    (hsig : hasPdfSignature f.content = false) :
    processFile st (some f) v rb env =
      ⟨RetVal.nullV, [processingStatus, invalidPdfStatus], [Ev.readBuffer],
       ⟨true, false⟩, ""⟩ := by
  simp only [processFile]
  rw [if_neg (by simp [htype]), if_neg (by omega), if_neg (by simp [hbusy]),
    if_neg (by rcases hmod with h | h <;> simp [h]), if_pos (by simp [hsig])]

theorem processFile_decryptRaise (st : SvcState) (f : JsFile) (v : String) (rb : Bool)
    (env : Env) (htype : f.type = "application/pdf")
    (hsize : f.size ≤ MAX_FILE_SIZE_BYTES) (hbusy : st.isProcessing = false)
    (hmod : st.qpdfModule = true ∨ env.moduleLoaded = true)
    (hsig : hasPdfSignature f.content = true)
    (hdec : env.decrypt f.content = none) :
    processFile st (some f) v rb env =
      ⟨RetVal.undefV, [processingStatus, processingFailedStatus],
       [Ev.readBuffer, Ev.fsWrite (inputStagingName env.now), Ev.zeroFill,
        Ev.decryptCall (inputStagingName env.now) (outputStagingName env.now)],
       ⟨true, false⟩, ""⟩ := by
  simp only [processFile]
  rw [if_neg (by simp [htype]), if_neg (by omega), if_neg (by simp [hbusy]),
    if_neg (by rcases hmod with h | h <;> simp [h]), if_neg (by simp [hsig]), hdec]

theorem processFile_success_blob (st : SvcState) (f : JsFile) (v : String)
    (env : Env) (out : List Nat) (htype : f.type = "application/pdf")
    (hsize : f.size ≤ MAX_FILE_SIZE_BYTES) (hbusy : st.isProcessing = false)
    (hmod : st.qpdfModule = true ∨ env.moduleLoaded = true)
    (hsig : hasPdfSignature f.content = true)
    (hdec : env.decrypt f.content = some out) :
    processFile st (some f) v true env =
      ⟨RetVal.blob out, [processingStatus],
       [Ev.readBuffer, Ev.fsWrite (inputStagingName env.now), Ev.zeroFill,
        Ev.decryptCall (inputStagingName env.now) (outputStagingName env.now),
        Ev.fsRead (outputStagingName env.now)] ++
         (unlinkGuarded env (inputStagingName env.now) ++
          unlinkGuarded env (outputStagingName env.now)) ++ [Ev.createURL 0],
       ⟨true, false⟩, ""⟩ := by
  simp only [processFile]
  rw [if_neg (by simp [htype]), if_neg (by omega), if_neg (by simp [hbusy]),
    if_neg (by rcases hmod with h | h <;> simp [h]), if_neg (by simp [hsig]), hdec]
  simp

theorem processFile_success_download (st : SvcState) (f : JsFile) (v : String)
    (env : Env) (out : List Nat) (htype : f.type = "application/pdf")
    (hsize : f.size ≤ MAX_FILE_SIZE_BYTES) (hbusy : st.isProcessing = false)
    (hmod : st.qpdfModule = true ∨ env.moduleLoaded = true)
    (hsig : hasPdfSignature f.content = true)
    (hdec : env.decrypt f.content = some out) :
    processFile st (some f) v false env =
      ⟨RetVal.nullV,
       [processingStatus, successStatus (stripPdfExt f.name ++ "_unlocked.pdf")],
       [Ev.readBuffer, Ev.fsWrite (inputStagingName env.now), Ev.zeroFill,
        Ev.decryptCall (inputStagingName env.now) (outputStagingName env.now),
        Ev.fsRead (outputStagingName env.now)] ++
         (unlinkGuarded env (inputStagingName env.now) ++
          unlinkGuarded env (outputStagingName env.now)) ++
         [Ev.createURL 0,
          Ev.download (stripPdfExt f.name ++ "_unlocked.pdf"), Ev.revokeURL 0],
       ⟨true, false⟩, ""⟩ := by
  simp only [processFile]
  rw [if_neg (by simp [htype]), if_neg (by omega), if_neg (by simp [hbusy]),
    if_neg (by rcases hmod with h | h <;> simp [h]), if_neg (by simp [hsig]), hdec]
  simp

/-- Helper: an admitted `queueFiles` call with the engine not blocked
appends exactly the PDF-typed entries to the queue. -/
theorem queueFiles_admitted_queue (q fl : List JsFile)
    (h : (queueFiles false q fl).result = AdmitResult.admitted) :
    (queueFiles false q fl).fileQueue = q ++ pdfFilter fl := by
  unfold queueFiles at h ⊢
  simp only [Bool.false_eq_true, if_false] at h ⊢
  by_cases h0 : ((pdfFilter fl).length == 0) = true
  · rw [if_pos h0] at h
    simp at h
  · rw [if_neg h0] at h ⊢
    by_cases h1 : (pdfFilter fl).length > MAX_BATCH_FILES
    · rw [if_pos h1] at h
      simp at h
    · rw [if_neg h1]

/-! Claim theorems. -/

/-- C3 counterexample: a submission of 21 entries, of which 20 are
PDF-typed and one is not, exceeds the submitted-entry ceiling of 20, yet
`queueFiles` admits it (the 20 PDF entries are enqueued) instead of
rejecting the whole submission with BatchLimitExceeded before filtering. -/
theorem C3_counterexample :
    (List.replicate 20 samplePdf ++ [sampleTxt]).length > MAX_BATCH_FILES ∧
    queueFiles false [] (List.replicate 20 samplePdf ++ [sampleTxt]) =
      ⟨List.replicate 20 samplePdf, AdmitResult.admitted⟩ := by
  constructor
  · decide
  · decide

/-- C3 amended: the batch ceiling of 20 applies to the count of PDF-typed
entries after filtering, not to the raw submitted entry count. If more
than 20 PDF-typed entries are submitted, the whole submission is rejected
with BatchLimitExceeded and the pending queue is unchanged; if the
filtered set is nonempty and within the ceiling, exactly the PDF-typed
entries are enqueued; if no entry is PDF-typed the submission is rejected;
and the `processQueue` entry guard starts a drain iff none is running. -/
theorem C3_batch_admission (q fl : List JsFile) :
    ((pdfFilter fl).length > MAX_BATCH_FILES →
      queueFiles false q fl = ⟨q, AdmitResult.batchLimitErr⟩) ∧
    (pdfFilter fl ≠ [] → (pdfFilter fl).length ≤ MAX_BATCH_FILES →
      queueFiles false q fl = ⟨q ++ pdfFilter fl, AdmitResult.admitted⟩) ∧
    (pdfFilter fl = [] →
      queueFiles false q fl = ⟨q, AdmitResult.invalidFormatErr⟩) ∧
    processQueueAcquire false = (true, true) ∧
    processQueueAcquire true = (true, false) := by
  refine ⟨?_, ?_, ?_, rfl, rfl⟩
  · intro h
    have h0 : (pdfFilter fl).length ≠ 0 := by omega
    unfold queueFiles
    simp only [Bool.false_eq_true, if_false]
    rw [if_neg (by simpa using h0), if_pos (by simpa using h)]
  · intro hne hle
    have h0 : (pdfFilter fl).length ≠ 0 := by
      simpa [List.length_eq_zero] using hne
    unfold queueFiles
    simp only [Bool.false_eq_true, if_false]
    rw [if_neg (by simpa using h0), if_neg (by simpa using Nat.not_lt.mpr hle)]
  · intro h
    unfold queueFiles
    simp only [Bool.false_eq_true, if_false]
    rw [if_pos (by simp [h])]

/-- C3 witness: a batch of 25 PDF-typed files is rejected whole with
BatchLimitExceeded and the queue stays unchanged. -/
theorem C3_batch_admission_witness :
    queueFiles false [] (List.replicate 25 samplePdf) =
      ⟨[], AdmitResult.batchLimitErr⟩ :=
  (C3_batch_admission [] (List.replicate 25 samplePdf)).1 (by decide)

/-- C4: a submission arriving while a drain is running merges into the
same FIFO and no second drain starts. The entry guard never re-acquires
the running flag; an admitted submission appends its PDF entries to the
live queue; and the already-running drain loop processes the initial queue
followed by every merged arrival, in FIFO order. -/
theorem C4_merge_into_running_drain (q fl : List JsFile)
    (arrivals : List (List JsFile))
    (hq : q = [] → arrivals = []) (ha : ∀ a ∈ arrivals, a ≠ []) :
    processQueueAcquire true = (true, false) ∧
    ((queueFiles false q fl).result = AdmitResult.admitted →
      (queueFiles false q fl).fileQueue = q ++ pdfFilter fl) ∧
    drainRun q arrivals = q ++ arrivals.flatten :=
  ⟨rfl, queueFiles_admitted_queue q fl, drainRun_eq_append arrivals q hq ha⟩

/-- C4 witness: with one file queued and draining, a one-file arrival is
processed by the same drain, and the guard does not start a second drain. -/
theorem C4_merge_into_running_drain_witness :
    processQueueAcquire true = (true, false) ∧
    drainRun [samplePdf] [[samplePdf2]] = [samplePdf, samplePdf2] := by
  have h := C4_merge_into_running_drain [samplePdf] [] [[samplePdf2]]
    (by simp) (by simp)
  exact ⟨h.1, by simpa using h.2.2⟩

/-- C5: the archive-mode decision computed once at drain entry is true iff
the queued file count is greater than 1 and the total declared size is
strictly below 150 MiB; any single-file batch gets false, and any batch of
3 files totalling 10 MiB gets true. The embedding computes the decision
exactly once from the queue at drain entry and the drain loop carries it
unchanged, matching the code's single `const` binding. -/
theorem C5_archive_mode_decision (q : List JsFile) :
    (useZip q = true ↔
      totalBatchSize q < ZIP_MEMORY_LIMIT_BYTES ∧ q.length > 1) ∧
    (∀ f : JsFile, useZip [f] = false) ∧
    (∀ f1 f2 f3 : JsFile, totalBatchSize [f1, f2, f3] = 10 * 1024 * 1024 →
      useZip [f1, f2, f3] = true) := by
  refine ⟨?_, ?_, ?_⟩
  · simp [useZip]
  · intro f
    simp [useZip]
  · intro f1 f2 f3 h
    simp only [useZip, h, List.length_cons, List.length_nil]
    norm_num [ZIP_MEMORY_LIMIT_BYTES, ZIP_MEMORY_LIMIT_MB]

/-- C5 witness: a concrete 3-file batch totalling 10 MiB gets archive mode
true, and a concrete huge single-file batch gets archive mode false. -/
theorem C5_archive_mode_decision_witness :
    useZip [⟨"a.pdf", "application/pdf", 4 * 1024 * 1024, []⟩,
            ⟨"b.pdf", "application/pdf", 3 * 1024 * 1024, []⟩,
            ⟨"c.pdf", "application/pdf", 3 * 1024 * 1024, []⟩] = true ∧
    useZip [⟨"big.pdf", "application/pdf", 999 * 1024 * 1024, []⟩] = false :=
  ⟨(C5_archive_mode_decision []).2.2 _ _ _ (by decide),
   (C5_archive_mode_decision []).2.1 _⟩

/-- C6 counterexample: from a fresh state, a second `initWasm` call made
while the first call's engine creation is still in flight does not await
it: the `if (qpdfModule) return` guard sees null, so the second call starts
its own creation (a distinct pending instance) and two engine instances
get created. -/
theorem C6_counterexample :
    (initWasmStart true (initWasmStart true ⟨none, 0, 0⟩).1).2 =
      InitAction.pending 1 ∧
    (initWasmStart true (initWasmStart true ⟨none, 0, 0⟩).1).1.created = 2 := by
  constructor
  · rfl
  · rfl

/-- C6 amended: `initWasm` is idempotent only once initialization has
completed: when `qpdfModule` is set, any later call returns immediately
with the state unchanged (no new engine instance). A call made while an
initialization is merely in flight is not guarded and starts a second one. -/
theorem C6_init_idempotent_when_ready (st : InitState) (m : Bool) (e : Nat)
    (h : st.qpdfModule = some e) :
    initWasmStart m st = (st, InitAction.done) := by
  simp only [initWasmStart]
  rw [h]

/-- C6 witness: with a completed engine instance, a redundant call returns
immediately and creates nothing. -/
theorem C6_init_idempotent_when_ready_witness :
    initWasmStart true ⟨some 0, 1, 1⟩ = (⟨some 0, 1, 1⟩, InitAction.done) :=
  C6_init_idempotent_when_ready ⟨some 0, 1, 1⟩ true 0 rfl

/-- C10: every progress message of a drain displays the batch total
captured when the drain started (`n` is never recomputed), the running
drain processes all merged arrivals, and whenever files merged in
mid-drain the final displayed counter `i` strictly exceeds the displayed
total `n`. -/
theorem C10_progress_total_never_recomputed (queue : List JsFile)
    (arrivals : List (List JsFile))
    (hq : queue = [] → arrivals = []) (ha : ∀ a ∈ arrivals, a ≠ []) :
    (∀ e ∈ drainSteps queue.length 0 queue arrivals, e.2 = queue.length) ∧
    drainRun queue arrivals = queue ++ arrivals.flatten ∧
    (arrivals.flatten ≠ [] →
      (queue.length + arrivals.flatten.length, queue.length) ∈
        drainSteps queue.length 0 queue arrivals ∧
      queue.length < queue.length + arrivals.flatten.length) := by
  have heq := drainRun_eq_append arrivals queue hq ha
  refine ⟨fun e he => drainSteps_snd_eq queue.length arrivals queue 0 e he,
    heq, ?_⟩
  intro hne
  have hqne : queue ≠ [] := by
    intro h0
    exact hne (by simp [hq h0])
  have hmem := drainSteps_mem_last queue.length arrivals queue 0 hqne ha
  rw [heq] at hmem
  simp only [List.length_append, Nat.zero_add] at hmem
  refine ⟨hmem, ?_⟩
  have hlen : arrivals.flatten.length ≠ 0 :=
    fun h0 => hne (List.length_eq_zero.mp h0)
  omega

/-- C10 witness: a drain started with one queued file that receives a
one-file arrival mid-drain displays `Unlocking (2/1)...` at its final
iteration: the counter exceeds the fixed total. -/
theorem C10_progress_total_never_recomputed_witness :
    (2, 1) ∈ drainSteps 1 0 [samplePdf] [[samplePdf2]] ∧ 1 < 2 := by
  have h := C10_progress_total_never_recomputed [samplePdf] [[samplePdf2]]
    (by simp) (by simp)
  have h3 := h.2.2 (by simp)
  simpa using h3

/-! Helper lemmas about the guarded cleanup block and object-URL events. -/

theorem unlinkTry_mem_unlinkGuarded (env : Env) (name : String) :
    Ev.unlinkTry name ∈ unlinkGuarded env name := by
  unfold unlinkGuarded
  split
  · simp
  · simp

theorem createURL_not_mem_unlinkGuarded (env : Env) (name : String) (u : Nat) :
    Ev.createURL u ∉ unlinkGuarded env name := by
  unfold unlinkGuarded
  split
  · simp
  · simp

theorem revokeURL_not_mem_unlinkGuarded (env : Env) (name : String) (u : Nat) :
    Ev.revokeURL u ∉ unlinkGuarded env name := by
  unfold unlinkGuarded
  split
  · simp
  · simp

theorem createdURLs_append (a b : List Ev) :
    createdURLs (a ++ b) = createdURLs a ++ createdURLs b := by
  unfold createdURLs
  exact List.filterMap_append a b _

theorem revokedURLs_append (a b : List Ev) :
    revokedURLs (a ++ b) = revokedURLs a ++ revokedURLs b := by
  unfold revokedURLs
  exact List.filterMap_append a b _

theorem createdURLs_unlinkGuarded (env : Env) (name : String) :
    createdURLs (unlinkGuarded env name) = [] := by
  unfold createdURLs unlinkGuarded
  split
  · rfl
  · rfl

theorem revokedURLs_unlinkGuarded (env : Env) (name : String) :
    revokedURLs (unlinkGuarded env name) = [] := by
  unfold revokedURLs unlinkGuarded
  split
  · rfl
  · rfl

/-- C1 counterexample: on a file that passed all validation, when the
engine's decrypt raises, `processFile` emits the ProcessingFailed outcome
but neither the generated input staging name nor the generated output
staging name receives an unlink attempt: the cleanup block sits after the
decrypt call inside the `try`, so the raise jumps straight to the `catch`
and cleanup is skipped, contradicting the claim that both staging entries
are still attempted for cleanup. -/
theorem C1_counterexample :
    (processFile ⟨true, false⟩ (some samplePdf) "x" false sampleEnvRaise).statuses =
      [processingStatus, processingFailedStatus] ∧
    Ev.unlinkTry (inputStagingName 42) ∉
      (processFile ⟨true, false⟩ (some samplePdf) "x" false sampleEnvRaise).trace ∧
    Ev.unlinkTry (outputStagingName 42) ∉
      (processFile ⟨true, false⟩ (some samplePdf) "x" false sampleEnvRaise).trace := by
  refine ⟨?_, ?_, ?_⟩
  · decide
  · decide
  · decide

/-- C1 amended: when the engine's decrypt raises on a fully validated
file, `processFile` returns the ProcessingFailed outcome with the busy
flag cleared, but the staging-entry cleanup is skipped entirely: the two
unlink attempts happen only when decode and read-back succeed, and on that
success path both staging entries are attempted, each unlink independently
guarded, so cleanup failures never prevent the normal return. -/
theorem C1_cleanup_only_on_success (st : SvcState) (f : JsFile) (v : String)
    (rb : Bool) (env : Env) (htype : f.type = "application/pdf")
    (hsize : f.size ≤ MAX_FILE_SIZE_BYTES) (hbusy : st.isProcessing = false)
    (hmod : st.qpdfModule = true ∨ env.moduleLoaded = true)
    (hsig : hasPdfSignature f.content = true) :
    (env.decrypt f.content = none →
      (processFile st (some f) v rb env).statuses =
        [processingStatus, processingFailedStatus] ∧
      (processFile st (some f) v rb env).state.isProcessing = false ∧
      Ev.unlinkTry (inputStagingName env.now) ∉
        (processFile st (some f) v rb env).trace ∧
      Ev.unlinkTry (outputStagingName env.now) ∉
        (processFile st (some f) v rb env).trace) ∧
    (∀ out, env.decrypt f.content = some out →
      Ev.unlinkTry (inputStagingName env.now) ∈
        (processFile st (some f) v rb env).trace ∧
      Ev.unlinkTry (outputStagingName env.now) ∈
        (processFile st (some f) v rb env).trace ∧
      (processFile st (some f) v rb env).state.isProcessing = false) := by
  constructor
  · intro hdec
    rw [processFile_decryptRaise st f v rb env htype hsize hbusy hmod hsig hdec]
    refine ⟨rfl, rfl, ?_, ?_⟩
    · simp
    · simp
  · intro out hdec
    cases rb with
    | false =>
        rw [processFile_success_download st f v env out htype hsize hbusy hmod
          hsig hdec]
        refine ⟨?_, ?_, rfl⟩
        · simp [unlinkTry_mem_unlinkGuarded]
        · simp [unlinkTry_mem_unlinkGuarded]
    | true =>
        rw [processFile_success_blob st f v env out htype hsize hbusy hmod
          hsig hdec]
        refine ⟨?_, ?_, rfl⟩
        · simp [unlinkTry_mem_unlinkGuarded]
        · simp [unlinkTry_mem_unlinkGuarded]

/-- C1 witness: with a decrypt that raises no cleanup attempt occurs, and
with a decrypt that succeeds while both unlinks raise, the input staging
entry still gets its attempt (and the call returns normally). -/
theorem C1_cleanup_only_on_success_witness :
    Ev.unlinkTry (inputStagingName 42) ∉
      (processFile ⟨true, false⟩ (some samplePdf) "x" false sampleEnvRaise).trace ∧
    Ev.unlinkTry (inputStagingName 42) ∈
      (processFile ⟨true, false⟩ (some samplePdf) "x" false
        sampleEnvUnlinkFail).trace := by
  have h1 := C1_cleanup_only_on_success ⟨true, false⟩ samplePdf "x" false
    sampleEnvRaise rfl (by decide) rfl (Or.inl rfl) rfl
  have h2 := C1_cleanup_only_on_success ⟨true, false⟩ samplePdf "x" false
    sampleEnvUnlinkFail rfl (by decide) rfl (Or.inl rfl) rfl
  exact ⟨(h1.1 rfl).2.2.1, (h2.2 [1, 2, 3] rfl).1⟩

/-- C2 counterexample: on the invalid-declared-type exit path the function
returns before the `try`/`finally`, so the caller-supplied input-element
reset (`fileInput.value = ''`) is not invoked: the stale value survives,
contradicting the claim that the reset hook runs on every exit path. -/
theorem C2_counterexample :
    (processFile ⟨true, false⟩ (some sampleTxt) "stale" false sampleEnvOk).statuses =
      [invalidFormatStatus] ∧
    (processFile ⟨true, false⟩ (some sampleTxt) "stale" false
      sampleEnvOk).fileInputValue = "stale" := by
  constructor
  · decide
  · decide

/-- C2 amended: the busy flag is cleared and `fileInput.value` reset on
every exit path reached after the busy flag is acquired (invalid PDF
signature, success, and exception during init or decode); but the
invalid-declared-type and file-too-large paths return before the
`try`/`finally`, leaving both the busy flag and the input element
untouched. -/
theorem C2_busy_and_reset_on_exit (st : SvcState) (f : JsFile) (v : String)
    (rb : Bool) (env : Env) (hbusy : st.isProcessing = false) :
    (f.type ≠ "application/pdf" →
      (processFile st (some f) v rb env).fileInputValue = v ∧
      (processFile st (some f) v rb env).state = st) ∧
    (f.type = "application/pdf" → f.size > MAX_FILE_SIZE_BYTES →
      (processFile st (some f) v rb env).fileInputValue = v ∧
      (processFile st (some f) v rb env).state = st) ∧
    (f.type = "application/pdf" → f.size ≤ MAX_FILE_SIZE_BYTES →
      (processFile st (some f) v rb env).state.isProcessing = false ∧
      (processFile st (some f) v rb env).fileInputValue = "") := by
  refine ⟨?_, ?_, ?_⟩
  · intro h
    rw [processFile_badType st f v rb env h]
    exact ⟨rfl, rfl⟩
  · intro h1 h2
    rw [processFile_tooLarge st f v rb env h1 h2]
    exact ⟨rfl, rfl⟩
  · intro h1 h2
    by_cases hmod : st.qpdfModule = true ∨ env.moduleLoaded = true
    · by_cases hsig : hasPdfSignature f.content = true
      · rcases hdec : env.decrypt f.content with _ | out
        · rw [processFile_decryptRaise st f v rb env h1 h2 hbusy hmod hsig hdec]
          exact ⟨rfl, rfl⟩
        · cases rb with
          | false =>
              rw [processFile_success_download st f v env out h1 h2 hbusy hmod
                hsig hdec]
              exact ⟨rfl, rfl⟩
          | true =>
              rw [processFile_success_blob st f v env out h1 h2 hbusy hmod
                hsig hdec]
              exact ⟨rfl, rfl⟩
      · rw [processFile_badSig st f v rb env h1 h2 hbusy hmod
          (by simpa using hsig)]
        exact ⟨rfl, rfl⟩
    · push_neg at hmod
      have hq : st.qpdfModule = false := by simpa using hmod.1
      have hm : env.moduleLoaded = false := by simpa using hmod.2
      rw [processFile_initFail st f v rb env h1 h2 hbusy hq hm]
      exact ⟨rfl, rfl⟩

/-- C2 witness: a successful run exits with the busy flag cleared and the
input element reset. -/
theorem C2_busy_and_reset_on_exit_witness :
    (processFile ⟨true, false⟩ (some samplePdf) "x" false
      sampleEnvOk).state.isProcessing = false ∧
    (processFile ⟨true, false⟩ (some samplePdf) "x" false
      sampleEnvOk).fileInputValue = "" :=
  (C2_busy_and_reset_on_exit ⟨true, false⟩ samplePdf "x" false sampleEnvOk
    rfl).2.2 rfl (by decide)

/-- C7: for a file that passes the declared-type, size, busy, and
engine-readiness checks but whose byte buffer does not start with the
literal signature 0x25 0x50 0x44 0x46, `processFile` reports the
InvalidPdfSignature outcome and resolves null — even though the declared
MIME type is correct — and its side-effect trace is exactly the buffer
read: the signature verdict comes only after the whole buffer is in
memory, and nothing reaches the engine. -/
theorem C7_invalid_signature (st : SvcState) (f : JsFile) (v : String)
    (rb : Bool) (env : Env) (htype : f.type = "application/pdf")
    (hsize : f.size ≤ MAX_FILE_SIZE_BYTES) (hbusy : st.isProcessing = false)
    (hmod : st.qpdfModule = true ∨ env.moduleLoaded = true)
    (hsig : hasPdfSignature f.content = false) :
    (processFile st (some f) v rb env).statuses =
      [processingStatus, invalidPdfStatus] ∧
    (processFile st (some f) v rb env).ret = RetVal.nullV ∧
    (processFile st (some f) v rb env).trace = [Ev.readBuffer] := by
  rw [processFile_badSig st f v rb env htype hsize hbusy hmod hsig]
  exact ⟨rfl, rfl, rfl⟩

/-- C7 witness: a PDF-typed file whose bytes are 0 1 2 3 is rejected with
the Invalid PDF status after the buffer read. -/
theorem C7_invalid_signature_witness :
    (processFile ⟨true, false⟩ (some sampleBadSig) "x" false
      sampleEnvOk).statuses = [processingStatus, invalidPdfStatus] ∧
    (processFile ⟨true, false⟩ (some sampleBadSig) "x" false
      sampleEnvOk).ret = RetVal.nullV ∧
    (processFile ⟨true, false⟩ (some sampleBadSig) "x" false
      sampleEnvOk).trace = [Ev.readBuffer] :=
  C7_invalid_signature ⟨true, false⟩ sampleBadSig "x" false sampleEnvOk rfl
    (by decide) rfl (Or.inl rfl) rfl

/-- C8 counterexample: on a successful archive-mode run (`returnBlob`
true), `processFile` creates an object URL for the output blob and returns
the blob without ever revoking that URL — the revoke sits only on the
individual-download branch — so not every object URL created for an output
is released before the batch completes. -/
theorem C8_counterexample :
    urlsReleased
      (processFile ⟨true, false⟩ (some samplePdf) "x" true sampleEnvOk).trace =
      false ∧
    Ev.createURL 0 ∈
      (processFile ⟨true, false⟩ (some samplePdf) "x" true sampleEnvOk).trace := by
  constructor
  · decide
  · decide

/-- C8 amended: on the individual-download path every object URL created
during the run is revoked within the run, and the archive-assembly step
revokes the ZIP blob's URL (creating none when the build fails); but in
archive mode each successful per-file decode creates an object URL that is
never revoked. -/
theorem C8_url_release (st : SvcState) (file : Option JsFile) (v : String)
    (env : Env) (uz ok : Bool) (s : Nat) (hbusy : st.isProcessing = false) :
    urlsReleased (processFile st file v false env).trace = true ∧
    urlsReleased (zipFinalize uz s ok) = true ∧
    (∀ (f : JsFile) (out : List Nat), f.type = "application/pdf" →
      f.size ≤ MAX_FILE_SIZE_BYTES →
      (st.qpdfModule = true ∨ env.moduleLoaded = true) →
      hasPdfSignature f.content = true → env.decrypt f.content = some out →
      Ev.createURL 0 ∈ (processFile st (some f) v true env).trace ∧
      Ev.revokeURL 0 ∉ (processFile st (some f) v true env).trace) := by
  refine ⟨?_, ?_, ?_⟩
  · match file with
    | none => rfl
    | some f =>
        by_cases htype : f.type = "application/pdf"
        · by_cases hsize : f.size ≤ MAX_FILE_SIZE_BYTES
          · by_cases hmod : st.qpdfModule = true ∨ env.moduleLoaded = true
            · by_cases hsig : hasPdfSignature f.content = true
              · rcases hdec : env.decrypt f.content with _ | out
                · rw [processFile_decryptRaise st f v false env htype hsize
                    hbusy hmod hsig hdec]
                  rfl
                · rw [processFile_success_download st f v env out htype hsize
                    hbusy hmod hsig hdec]
                  simp only [urlsReleased, createdURLs_append,
                    revokedURLs_append, createdURLs_unlinkGuarded,
                    revokedURLs_unlinkGuarded]
                  simp [createdURLs, revokedURLs]
              · rw [processFile_badSig st f v false env htype hsize hbusy hmod
                  (by simpa using hsig)]
                rfl
            · push_neg at hmod
              rw [processFile_initFail st f v false env htype hsize hbusy
                (by simpa using hmod.1) (by simpa using hmod.2)]
              rfl
          · rw [processFile_tooLarge st f v false env htype (by omega)]
            rfl
        · rw [processFile_badType st f v false env htype]
          rfl
  · unfold zipFinalize
    split
    · split
      · decide
      · decide
    · decide
  · intro f out htype hsize hmod hsig hdec
    rw [processFile_success_blob st f v env out htype hsize hbusy hmod hsig hdec]
    constructor
    · simp
    · simp [revokeURL_not_mem_unlinkGuarded]

/-- C8 witness: a successful individual-download run leaves every created
object URL revoked, while the same file processed in archive mode leaves
its created URL unrevoked. -/
theorem C8_url_release_witness :
    urlsReleased
      (processFile ⟨true, false⟩ (some samplePdf) "x" false sampleEnvOk).trace =
      true ∧
    Ev.revokeURL 0 ∉
      (processFile ⟨true, false⟩ (some samplePdf) "x" true sampleEnvOk).trace := by
  have h := C8_url_release ⟨true, false⟩ (some samplePdf) "x" sampleEnvOk
    true true 1 rfl
  exact ⟨h.1, (h.2.2 samplePdf [1, 2, 3] rfl (by decide) (Or.inl rfl) rfl rfl).2⟩

/-- C9: `processFile` resolves with a Blob exactly on a fully successful
decode with `returnBlob` true; every other path resolves with a non-Blob
value, inconsistently: JavaScript null on the file-too-large,
busy-rejection, invalid-signature, and successful non-returnBlob paths,
and JavaScript undefined on the invalid-declared-type path and on the
exception path. -/
theorem C9_return_value_inconsistency (st : SvcState) (f : JsFile) (v : String)
    (rb : Bool) (env : Env) :
    (processFile st none v rb env).ret = RetVal.undefV ∧
    (f.type ≠ "application/pdf" →
      (processFile st (some f) v rb env).ret = RetVal.undefV) ∧
    (f.type = "application/pdf" → f.size > MAX_FILE_SIZE_BYTES →
      (processFile st (some f) v rb env).ret = RetVal.nullV) ∧
    (f.type = "application/pdf" → f.size ≤ MAX_FILE_SIZE_BYTES →
      st.isProcessing = true →
      (processFile st (some f) v rb env).ret = RetVal.nullV) ∧
    (f.type = "application/pdf" → f.size ≤ MAX_FILE_SIZE_BYTES →
      st.isProcessing = false →
      (st.qpdfModule = true ∨ env.moduleLoaded = true) →
      hasPdfSignature f.content = false →
      (processFile st (some f) v rb env).ret = RetVal.nullV) ∧
    (f.type = "application/pdf" → f.size ≤ MAX_FILE_SIZE_BYTES →
      st.isProcessing = false →
      (st.qpdfModule = true ∨ env.moduleLoaded = true) →
      hasPdfSignature f.content = true → env.decrypt f.content = none →
      (processFile st (some f) v rb env).ret = RetVal.undefV) ∧
    (∀ out, f.type = "application/pdf" → f.size ≤ MAX_FILE_SIZE_BYTES →
      st.isProcessing = false →
      (st.qpdfModule = true ∨ env.moduleLoaded = true) →
      hasPdfSignature f.content = true → env.decrypt f.content = some out →
      (processFile st (some f) v false env).ret = RetVal.nullV ∧
      (processFile st (some f) v true env).ret = RetVal.blob out) ∧
    (∀ b, (processFile st (some f) v rb env).ret = RetVal.blob b →
      rb = true ∧ f.type = "application/pdf" ∧
      f.size ≤ MAX_FILE_SIZE_BYTES ∧ st.isProcessing = false ∧
      hasPdfSignature f.content = true ∧
      env.decrypt f.content = some b) := by
  refine ⟨rfl, ?_, ?_, ?_, ?_, ?_, ?_, ?_⟩
  · intro h
    rw [processFile_badType st f v rb env h]
  · intro h1 h2
    rw [processFile_tooLarge st f v rb env h1 h2]
  · intro h1 h2 h3
    rw [processFile_busy st f v rb env h1 h2 h3]
  · intro h1 h2 h3 h4 h5
    rw [processFile_badSig st f v rb env h1 h2 h3 h4 h5]
  · intro h1 h2 h3 h4 h5 h6
    rw [processFile_decryptRaise st f v rb env h1 h2 h3 h4 h5 h6]
  · intro out h1 h2 h3 h4 h5 h6
    rw [processFile_success_download st f v env out h1 h2 h3 h4 h5 h6,
      processFile_success_blob st f v env out h1 h2 h3 h4 h5 h6]
    exact ⟨rfl, rfl⟩
  · intro b hb
    by_cases h1 : f.type = "application/pdf"
    · by_cases h2 : f.size ≤ MAX_FILE_SIZE_BYTES
      · by_cases h3 : st.isProcessing = true
        · rw [processFile_busy st f v rb env h1 h2 h3] at hb
          simp at hb
        · have h3' : st.isProcessing = false := by simpa using h3
          by_cases h4 : st.qpdfModule = true ∨ env.moduleLoaded = true
          · by_cases h5 : hasPdfSignature f.content = true
            · rcases h6 : env.decrypt f.content with _ | out
              · rw [processFile_decryptRaise st f v rb env h1 h2 h3' h4 h5
                  h6] at hb
                simp at hb
              · cases rb with
                | false =>
                    rw [processFile_success_download st f v env out h1 h2 h3'
                      h4 h5 h6] at hb
                    simp at hb
                | true =>
                    rw [processFile_success_blob st f v env out h1 h2 h3' h4
                      h5 h6] at hb
                    have hob : out = b := RetVal.blob.inj hb
                    subst hob
                    exact ⟨rfl, h1, h2, h3', h5, rfl⟩
            · rw [processFile_badSig st f v rb env h1 h2 h3' h4
                (by simpa using h5)] at hb
              simp at hb
          · push_neg at h4
            rw [processFile_initFail st f v rb env h1 h2 h3'
              (by simpa using h4.1) (by simpa using h4.2)] at hb
            simp at hb
      · rw [processFile_tooLarge st f v rb env h1 (by omega)] at hb
        simp at hb
    · rw [processFile_badType st f v rb env h1] at hb
      simp at hb

/-- C9 witness: concrete runs exhibiting undefined on the invalid-type and
decode-exception paths, null on the invalid-signature path, and a Blob on
the successful returnBlob path. -/
theorem C9_return_value_inconsistency_witness :
    (processFile ⟨true, false⟩ (some sampleTxt) "x" false sampleEnvOk).ret =
      RetVal.undefV ∧
    (processFile ⟨true, false⟩ (some samplePdf) "x" false sampleEnvRaise).ret =
      RetVal.undefV ∧
    (processFile ⟨true, false⟩ (some sampleBadSig) "x" false sampleEnvOk).ret =
      RetVal.nullV ∧
    (processFile ⟨true, false⟩ (some samplePdf) "x" true sampleEnvOk).ret =
      RetVal.blob [1, 2, 3] := by
  refine ⟨?_, ?_, ?_, ?_⟩
  · exact (C9_return_value_inconsistency ⟨true, false⟩ sampleTxt "x" false
      sampleEnvOk).2.1 (by decide)
  · exact (C9_return_value_inconsistency ⟨true, false⟩ samplePdf "x" false
      sampleEnvRaise).2.2.2.2.2.1 rfl (by decide) rfl (Or.inl rfl) rfl rfl
  · exact (C9_return_value_inconsistency ⟨true, false⟩ sampleBadSig "x" false
      sampleEnvOk).2.2.2.2.1 rfl (by decide) rfl (Or.inl rfl) rfl
  · exact ((C9_return_value_inconsistency ⟨true, false⟩ samplePdf "x" false
      sampleEnvOk).2.2.2.2.2.2.1 [1, 2, 3] rfl (by decide) rfl (Or.inl rfl)
      rfl rfl).2

end PdfUnlocker
